import Mathlib

/-!
Verification development for the `node-vault-client` repository.

The only source file of the repository present under `src/` is
`src/auth/VaultKubernetesAuth.js` (plus the end-to-end test suite).  The
Kubernetes authentication backend is embedded faithfully below; the
components that the repository's tests exercise but whose sources are
missing (VaultClient read/write, the token lifecycle manager, the
configuration injection walker, VaultBaseAuth._getTokenEntity) are
modelled from the specification, each marked `Modelled from the spec:`.
-/

/-- A JSON-ish scalar value, as carried in secret data and configuration
leaves by the client. -/
inductive JsValue where
  | str : String → JsValue
  | num : Int → JsValue
deriving DecidableEq, Repr

/-- Error taxonomy of the client, per the spec (§7), plus `fsError` for a
raw Node.js filesystem exception (e.g. what `fs.readFileSync` throws),
which the spec's taxonomy does not classify. -/
inductive JsError where
  | fsError : String → JsError
  | authError : String → JsError
  | transportError : String → JsError
  | configurationError : String → JsError
deriving DecidableEq, Repr

/-- Token Entity, per spec §3: credential string, issue time, lease
duration in seconds, renewability flag. -/
structure TokenEntity where
  credential : String
  issuedAt : Nat
  leaseDuration : Nat
  renewable : Bool
deriving DecidableEq, Repr

/-- Modelled from the spec: `VaultBaseAuth._getTokenEntity` is not under
`src/` (only its caller is).  Per spec §3/§4.1 the backend builds a Token
Entity from the client token returned by the store, with lease metadata
(lease duration in seconds, renewable flag) discovered from the store. -/
def getTokenEntity (clientToken : String) (leaseDuration : Nat)
    (renewable : Bool) : TokenEntity :=
  { credential := clientToken
    issuedAt := 0
    leaseDuration := leaseDuration
    renewable := renewable }

/-- Body of a login request to `auth/<mount>/login`, per backend variant. -/
inductive LoginBody where
  | kubernetes : Option String → String → LoginBody
  | appRole : String → Option String → LoginBody
deriving DecidableEq, Repr

/-- An HTTP request issued through `VaultApiClient.makeRequest`. -/
structure LoginRequest where
  method : String
  path : String
  body : LoginBody
deriving DecidableEq, Repr

/-- The store's reply to a successful login: `res.auth` fields consumed
by the client, plus the lease metadata the base class looks up. -/
structure LoginResponse where
  client_token : String
  lease_duration : Nat
  renewable : Bool
deriving DecidableEq, Repr

/-- Configuration object accepted by `VaultKubernetesAuth`'s constructor:
`config.role` (the documented required field, absent when the caller left
it out) and the documented-but-optional `config.jwt`. -/
structure KubeConfig where
  role : Option String
  jwt : Option String
deriving DecidableEq, Repr

/-- State of a constructed `VaultKubernetesAuth` instance: the fields the
constructor assigns (`this.__role`, `this.__filePath`) and the mount point
the base-class constructor stores. -/
structure VaultKubernetesAuth where
  role : Option String
  filePath : String
  mount : String
deriving DecidableEq, Repr

/-- The well-known service-account token path hard-coded at
`VaultKubernetesAuth.js:16`. -/
def serviceAccountTokenPath : String :=
  "/var/run/secrets/kubernetes.io/serviceaccount/token"

/-- The constructor body (`VaultKubernetesAuth.js:12-17`): stores
`config.role` and the fixed file path; the base class stores
`mount || 'kubernetes'`.  `config.jwt` is never read. -/
def VaultKubernetesAuth.mk' (config : KubeConfig) (mount : Option String) :
    VaultKubernetesAuth :=
  { role := config.role
    filePath := serviceAccountTokenPath
    mount := mount.getD "kubernetes" }

/-- Construction as a fallible operation: the constructor contains no
validation and no throw, so it always succeeds, whatever the config. -/
def VaultKubernetesAuth.construct (config : KubeConfig)
    (mount : Option String) : Except JsError VaultKubernetesAuth :=
  .ok (VaultKubernetesAuth.mk' config mount)

/-- Observable outcome of one `_authenticate()` run: every log line
emitted (at any severity, `this._log` and `console.log` alike, in order),
the HTTP request issued if any, and the settled result. -/
structure AuthTrace where
  logs : List String
  request : Option LoginRequest
  result : Except JsError TokenEntity
deriving Repr

/-- `VaultKubernetesAuth._authenticate` (`VaultKubernetesAuth.js:19-40`),
line by line:
* logs `'making authentication request: role_id=%s'` with
  `this.__roleId` — a field that is never assigned, so `%s` renders
  `undefined`;
* evaluates `fs.readFileSync(this.__filePath).toString()` eagerly inside
  `Promise.resolve(...)`: a read failure is a raw synchronous filesystem
  exception, classified by nothing (`fs` is the environment, a map from
  path to content or error);
* on success logs the file content via
  ``console.log(`File is contains token ${jwt}`)``;
* issues `POST /auth/<mount>/login` with body `{role, jwt}` through
  `makeRequest` (`api` is the transport environment; its own rejection
  propagates unchanged);
* logs `'receive token: %s'` with `res.auth.client_token` and returns
  `this._getTokenEntity(res.auth.client_token)`. -/
def VaultKubernetesAuth.runAuthenticate (a : VaultKubernetesAuth)
    (fs : String → Except String String)
    (api : LoginRequest → Except JsError LoginResponse) : AuthTrace :=
  let firstLog := "making authentication request: role_id=undefined"
  match fs a.filePath with
  | .error e =>
      { logs := [firstLog]
        request := none
        result := .error (.fsError e) }
  | .ok jwt =>
      let fileLog := "File is contains token " ++ jwt
      let req : LoginRequest :=
        { method := "POST"
          path := "/auth/" ++ a.mount ++ "/login"
          body := .kubernetes a.role jwt }
      match api req with
      | .error e =>
          { logs := [firstLog, fileLog]
            request := some req
            result := .error e }
      | .ok res =>
          { logs := [firstLog, fileLog,
                     "receive token: " ++ res.client_token]
            request := some req
            result := .ok (getTokenEntity res.client_token
                             res.lease_duration res.renewable) }

/-- A filesystem whose service-account file holds `jwt`. -/
def fsWith (jwt : String) : String → Except String String :=
  fun _ => .ok jwt

/-- A store that accepts every login and returns the fixed token `tok`. -/
def apiWith (tok : String) : LoginRequest → Except JsError LoginResponse :=
  fun _ => .ok { client_token := tok, lease_duration := 60, renewable := true }

/-- Modelled from the spec: `VaultClient.read` / `VaultClient.write` and
the secret store are not under `src/` (only the e2e test exercising them
is).  Per spec §6 the store exposes generic secret read/write paths under
a mount prefix; its secret state is a map from path to secret data, a
flat JSON object. -/
def VaultStore := String → Option (List (String × JsValue))

/-- Writing secret data installs it at the given path, leaving every
other path untouched. -/
def VaultStore.write (s : VaultStore) (path : String)
    (data : List (String × JsValue)) : VaultStore :=
  fun q => if q = path then some data else s q

/-- Reading returns the secret data stored at the path, if any. -/
def VaultStore.read (s : VaultStore) (path : String) :
    Option (List (String × JsValue)) :=
  s path

/-- A configuration object represented by its leaves: a list of
(tree path, leaf value) pairs. -/
abbrev ConfigLeaves := List (List String × JsValue)

/-- Modelled from the spec: the configuration injection walker
(`VaultClient.fillNodeConfig`) is not under `src/` (only the e2e test
is).  Per spec §6, given a mapping from configuration-tree paths to
fetched secret values, it overwrites matching leaves of the existing
configuration with the fetched values; unresolvable or empty mappings
leave defaults untouched. -/
def injectSecrets (m : List String → Option JsValue) (cfg : ConfigLeaves) :
    ConfigLeaves :=
  cfg.map fun leaf => (leaf.1, (m leaf.1).getD leaf.2)

/-- Phase of the Token Lifecycle Manager state machine (spec §4.2):
`Unauthenticated → Authenticating → Valid → Renewing → Valid`.  An
in-flight operation carries the identifier of the single pending backend
call. -/
inductive ManagerPhase where
  | unauthenticated
  | authenticating (opId : Nat)
  | valid (tok : TokenEntity)
  | renewing (opId : Nat)
deriving DecidableEq, Repr

/-- Modelled from the spec: the Token Lifecycle Manager is not under
`src/`.  Its state is the current phase together with the number of
backend login/renew network calls issued so far (each pending operation's
identifier is the call count at its start). -/
structure ManagerState where
  phase : ManagerPhase
  backendCalls : Nat
deriving DecidableEq, Repr

/-- What one caller asking for a valid token receives: either the
currently cached token, or the pending result of the single in-flight
operation it must await. -/
inductive TokenOutcome where
  | pending (opId : Nat)
  | ready (tok : TokenEntity)
deriving DecidableEq, Repr

/-- Modelled from the spec (§4.2): a caller requesting a valid token
while `Authenticating` or `Renewing` receives the same pending result as
every other waiter, with no new backend call; with a `Valid` cached token
it receives that token; from `Unauthenticated` it triggers exactly one
new backend authentication call. -/
def requestToken (s : ManagerState) : ManagerState × TokenOutcome :=
  match s.phase with
  | .authenticating op => (s, .pending op)
  | .renewing op => (s, .pending op)
  | .valid tok => (s, .ready tok)
  | .unauthenticated =>
      ({ phase := .authenticating s.backendCalls
         backendCalls := s.backendCalls + 1 },
       .pending s.backendCalls)

/-- N callers arriving while the manager is in a given state (the JS
event loop serializes arrivals), collecting each caller's outcome. -/
def requestTokenN (s : ManagerState) : Nat → ManagerState × List TokenOutcome
  | 0 => (s, [])
  | n + 1 =>
      let p := requestToken s
      let q := requestTokenN p.1 n
      (q.1, p.2 :: q.2)

/-- Expiry instant of a Token Entity: issue time plus lease duration in
seconds. -/
def TokenEntity.expiry (t : TokenEntity) : Nat :=
  t.issuedAt + t.leaseDuration

/-- Modelled from the spec: the renewal timing policy (§4.2) schedules
the renewal attempt at a fraction of the lease, "renew when roughly half
the lease has elapsed", never waiting until the last moment; the delay is
the rounded-up half lease. -/
def TokenEntity.renewAt (t : TokenEntity) : Nat :=
  t.issuedAt + (t.leaseDuration + 1) / 2

/-- Modelled from the spec: a successful renew call replaces the cached
entity with the refreshed lease information — same credential, the lease
restarting at the renewal instant. -/
def TokenEntity.renewNow (t : TokenEntity) (now : Nat) : TokenEntity :=
  { t with issuedAt := now }

/-- Modelled from the spec: the lifecycle manager kept alive over
discrete seconds.  `lifecycleAt tok n` is the cached Token Entity at time
`n` for a token held from time 0: at each second, when the armed renewal
timer fires (the cached token is renewable and its renewal instant has
come) the renew call succeeds and the refreshed entity replaces the
cached one. -/
def lifecycleAt (tok : TokenEntity) : Nat → TokenEntity
  | 0 => tok
  | n + 1 =>
      let c := lifecycleAt tok n
      if c.renewable = true ∧ n + 1 = c.renewAt then c.renewNow (n + 1) else c

/-- Number of successful renewals the kept-alive manager has performed
during the first `n` seconds. -/
def renewalsUpTo (tok : TokenEntity) : Nat → Nat
  | 0 => 0
  | n + 1 =>
      let c := lifecycleAt tok n
      renewalsUpTo tok n +
        (if c.renewable = true ∧ n + 1 = c.renewAt then 1 else 0)

/-- Token backend configuration: the pre-issued credential. -/
structure TokenConfig where
  token : String
deriving DecidableEq, Repr

/-- AppRole backend configuration: `role_id` and optional `secret_id`
(spec §4.1). -/
structure AppRoleConfig where
  role_id : String
  secret_id : Option String
deriving DecidableEq, Repr

/-- The closed set of authentication backend variants (spec §2/§4.1).
Only the Kubernetes variant's source is under `src/`; the Token and
AppRole variants are modelled from the spec. -/
inductive AuthBackend where
  | token : TokenConfig → AuthBackend
  | appRole : AppRoleConfig → String → AuthBackend
  | kubernetes : VaultKubernetesAuth → AuthBackend
deriving DecidableEq, Repr

/-- Modelled from the spec: dispatch of `authenticate()` over the
variants (§4.1).  The Token backend synthesizes the entity directly from
its configured credential without a network call, with lease metadata
from the store's self-lookup; the AppRole backend performs a login call
with `role_id` and optional `secret_id`, surfacing the store's rejection
unchanged; the Kubernetes backend runs the embedded `_authenticate`. -/
def authenticateBackend (b : AuthBackend)
    (fs : String → Except String String)
    (api : LoginRequest → Except JsError LoginResponse)
    (selfLookup : String → Nat × Bool) : Except JsError TokenEntity :=
  match b with
  | .token cfg =>
      .ok (getTokenEntity cfg.token (selfLookup cfg.token).1
             (selfLookup cfg.token).2)
  | .appRole cfg mount =>
      match api { method := "POST"
                  path := "/auth/" ++ mount ++ "/login"
                  body := .appRole cfg.role_id cfg.secret_id } with
      | .error e => .error e
      | .ok res =>
          .ok (getTokenEntity res.client_token res.lease_duration
                 res.renewable)
  | .kubernetes a => (a.runAuthenticate fs api).result

/-- The configuration leaves of the e2e test's base configuration
(`test/data/config-base`). -/
def cfgBase : ConfigLeaves :=
  [(["deep", "aStr"], .str ""),
   (["deep", "aInt"], .num 0),
   (["b"], .str "NOT WORKING")]

/-- The full mapping of the e2e `should fill node-config` scenario:
every leaf of the base configuration is mapped to a fetched secret
value. -/
def mappingFull : List String → Option JsValue :=
  fun p =>
    if p = ["deep", "aStr"] then some (.str "testData")
    else if p = ["deep", "aInt"] then some (.num 12345)
    else if p = ["b"] then some (.str "ZZZ")
    else none

/-- A concrete self-lookup environment: every token has a 60-second
renewable lease. -/
def selfLookupEx : String → Nat × Bool :=
  fun _ => (60, true)

/-- C1: the log output of `_authenticate` is NOT independent of the raw
service-account credential: with the file containing `JWT-A` the run logs
the literal line `File is contains token JWT-A` (the raw JWT, echoing
`console.log` at line 27), and changing only the credential to `JWT-B`
changes the log output; the received client token is likewise logged
(`receive token: ...`, line 34-37).  This refutes the claim that the raw
credential and the client token never appear in any log output. -/
theorem kubernetes_auth_log_output_depends_on_credential :
    ("File is contains token JWT-A" ∈
      ((VaultKubernetesAuth.mk' ⟨some "r", none⟩ none).runAuthenticate
        (fsWith "JWT-A") (apiWith "TOK-1")).logs) ∧
    ("receive token: TOK-1" ∈
      ((VaultKubernetesAuth.mk' ⟨some "r", none⟩ none).runAuthenticate
        (fsWith "JWT-A") (apiWith "TOK-1")).logs) ∧
    ((VaultKubernetesAuth.mk' ⟨some "r", none⟩ none).runAuthenticate
        (fsWith "JWT-A") (apiWith "TOK-1")).logs ≠
      ((VaultKubernetesAuth.mk' ⟨some "r", none⟩ none).runAuthenticate
        (fsWith "JWT-B") (apiWith "TOK-1")).logs := by
  refine ⟨?_, ?_, ?_⟩ <;> decide

/-- C2: an unreadable service-account file does NOT produce an
`AuthError` (nor a `ConfigurationError`): `fs.readFileSync` is evaluated
eagerly at line 25 and its raw filesystem exception propagates
unclassified out of `_authenticate`. -/
theorem kubernetes_auth_unreadable_file_raises_raw_fs_error :
    ((VaultKubernetesAuth.mk' ⟨some "r", none⟩ none).runAuthenticate
        (fun _ => .error "EACCES: permission denied")
        (apiWith "TOK-1")).result =
      .error (.fsError "EACCES: permission denied") := by
  rfl

/-- C3 counterexample: constructing the Kubernetes backend with a config
that is missing the required `role` field succeeds — no
`ConfigurationError` is raised at construction time. -/
theorem kubernetes_construct_missing_role_succeeds :
    (VaultKubernetesAuth.construct ⟨none, none⟩ none).isOk = true := by
  decide

/-- C3 amended: construction of the Kubernetes backend performs no
validation at all: for every configuration, including one missing the
required `role`, construction succeeds without any error and without any
network call (the constructor takes no transport), merely storing
`config.role` as given, the fixed file path, and the defaulted mount. -/
theorem kubernetes_construct_never_fails (config : KubeConfig)
    (mount : Option String) :
    VaultKubernetesAuth.construct config mount =
      .ok { role := config.role
            filePath := serviceAccountTokenPath
            mount := mount.getD "kubernetes" } := by
  rfl

/-- C4: a successful Kubernetes authentication reads the service-account
token from the single well-known path, issues exactly one
`POST /auth/<mount>/login` with body `{role, jwt}` where `jwt` is the
file's content, and resolves to the Token Entity built from the
response's `client_token`. -/
theorem kubernetes_authenticate_request_and_result
    (config : KubeConfig) (mount : Option String) (jwt : String)
    (fs : String → Except String String)
    (api : LoginRequest → Except JsError LoginResponse)
    (res : LoginResponse)
    (hfs : fs serviceAccountTokenPath = .ok jwt)
    (hapi : api { method := "POST"
                  path := "/auth/" ++ (mount.getD "kubernetes") ++ "/login"
                  body := .kubernetes config.role jwt } = .ok res) :
    ((VaultKubernetesAuth.mk' config mount).runAuthenticate fs api).request =
        some { method := "POST"
               path := "/auth/" ++ (mount.getD "kubernetes") ++ "/login"
               body := .kubernetes config.role jwt } ∧
    ((VaultKubernetesAuth.mk' config mount).runAuthenticate fs api).result =
        .ok (getTokenEntity res.client_token res.lease_duration
               res.renewable) := by
  simp only [VaultKubernetesAuth.runAuthenticate, VaultKubernetesAuth.mk',
    hfs, hapi]
  exact ⟨trivial, trivial⟩

/-- C4 witness: concrete instantiation. -/
theorem kubernetes_authenticate_request_and_result_witness :
    (fsWith "J1" serviceAccountTokenPath = .ok "J1") ∧
    (apiWith "TOK-9" { method := "POST"
                       path := "/auth/kubernetes/login"
                       body := .kubernetes (some "r") "J1" } =
      .ok { client_token := "TOK-9", lease_duration := 60,
            renewable := true }) ∧
    (((VaultKubernetesAuth.mk' ⟨some "r", none⟩ none).runAuthenticate
          (fsWith "J1") (apiWith "TOK-9")).request =
        some { method := "POST"
               path := "/auth/kubernetes/login"
               body := .kubernetes (some "r") "J1" } ∧
      ((VaultKubernetesAuth.mk' ⟨some "r", none⟩ none).runAuthenticate
          (fsWith "J1") (apiWith "TOK-9")).result =
        .ok (getTokenEntity "TOK-9" 60 true)) :=
  ⟨rfl, rfl,
    kubernetes_authenticate_request_and_result ⟨some "r", none⟩ none "J1"
      (fsWith "J1") (apiWith "TOK-9")
      { client_token := "TOK-9", lease_duration := 60, renewable := true }
      rfl rfl⟩

/-- C10: the backend ignores the `config.jwt` field its constructor
documentation advertises: the constructed state is identical for any two
values of `config.jwt`, the file path is the fixed well-known constant,
and whenever the file is readable the JWT submitted in the login body is
the file's content — never the configured value. -/
theorem kubernetes_ignores_config_jwt
    (role : Option String) (j1 j2 : Option String) (mount : Option String)
    (fs : String → Except String String)
    (api : LoginRequest → Except JsError LoginResponse) (w : String)
    (hfs : fs serviceAccountTokenPath = .ok w) :
    VaultKubernetesAuth.mk' ⟨role, j1⟩ mount =
        VaultKubernetesAuth.mk' ⟨role, j2⟩ mount ∧
    (VaultKubernetesAuth.mk' ⟨role, j1⟩ mount).filePath =
        serviceAccountTokenPath ∧
    ((VaultKubernetesAuth.mk' ⟨role, j1⟩ mount).runAuthenticate fs api).request
      = some { method := "POST"
               path := "/auth/" ++ (mount.getD "kubernetes") ++ "/login"
               body := .kubernetes role w } := by
  refine ⟨rfl, rfl, ?_⟩
  simp only [VaultKubernetesAuth.runAuthenticate, VaultKubernetesAuth.mk',
    hfs]
  rcases hr : api { method := "POST"
                    path := "/auth/" ++ (mount.getD "kubernetes") ++ "/login"
                    body := .kubernetes role w } with e | res <;>
    simp [hr]

/-- C10 witness: concrete instantiation with two distinct configured
jwt values. -/
theorem kubernetes_ignores_config_jwt_witness :
    (fsWith "FILE-JWT" serviceAccountTokenPath = .ok "FILE-JWT") ∧
    (VaultKubernetesAuth.mk' ⟨some "r", some "CFG-1"⟩ none =
        VaultKubernetesAuth.mk' ⟨some "r", some "CFG-2"⟩ none ∧
      (VaultKubernetesAuth.mk' ⟨some "r", some "CFG-1"⟩ none).filePath =
        serviceAccountTokenPath ∧
      ((VaultKubernetesAuth.mk' ⟨some "r", some "CFG-1"⟩ none).runAuthenticate
          (fsWith "FILE-JWT") (apiWith "T")).request =
        some { method := "POST"
               path := "/auth/kubernetes/login"
               body := .kubernetes (some "r") "FILE-JWT" }) :=
  ⟨rfl,
    kubernetes_ignores_config_jwt (some "r") (some "CFG-1") (some "CFG-2")
      none (fsWith "FILE-JWT") (apiWith "T") "FILE-JWT" rfl⟩

/-- C5: writing secret data to a path and then reading from the same
path returns data deep-equal to what was written. -/
theorem store_read_after_write (s : VaultStore) (path : String)
    (data : List (String × JsValue)) :
    (s.write path data).read path = some data := by
  simp [VaultStore.read, VaultStore.write]

/-- C6: injecting secrets with an empty or unresolvable mapping leaves
every leaf of the configuration unchanged (and the set of leaves itself
unchanged); injecting with a mapping overwrites exactly the mapped
leaves — a leaf whose path the mapping resolves carries the mapped value
afterwards, a leaf whose path it does not resolve is unchanged — and no
leaf is added or removed. -/
theorem inject_frame_properties (m : List String → Option JsValue)
    (cfg : ConfigLeaves) :
    ((∀ p, m p = none) → injectSecrets m cfg = cfg) ∧
    (injectSecrets m cfg).length = cfg.length ∧
    (∀ p v, (p, v) ∈ cfg → m p = none → (p, v) ∈ injectSecrets m cfg) ∧
    (∀ p v w, (p, v) ∈ cfg → m p = some w →
      (p, w) ∈ injectSecrets m cfg) := by
  refine ⟨?_, ?_, ?_, ?_⟩
  · intro h
    induction cfg with
    | nil => rfl
    | cons a t ih =>
        simp only [injectSecrets, List.map_cons] at ih ⊢
        rw [h a.1]
        simpa using ih
  · simp [injectSecrets]
  · intro p v hm hnone
    simp only [injectSecrets]
    exact List.mem_map.mpr ⟨(p, v), hm, by simp [hnone]⟩
  · intro p v w hm hsome
    simp only [injectSecrets]
    exact List.mem_map.mpr ⟨(p, v), hm, by simp [hsome]⟩

/-- C6 witness: on the e2e base configuration, the empty mapping is a
no-op and the full mapping overwrites the `b` leaf with the fetched
value. -/
theorem inject_frame_properties_witness :
    injectSecrets (fun _ => none) cfgBase = cfgBase ∧
    ((["b"], JsValue.str "ZZZ") ∈ injectSecrets mappingFull cfgBase) :=
  ⟨(inject_frame_properties (fun _ => none) cfgBase).1 (fun _ => rfl),
   (inject_frame_properties mappingFull cfgBase).2.2.2 ["b"]
     (.str "NOT WORKING") (.str "ZZZ") (by decide) (by decide)⟩

/-- Helper: while an operation is in flight, every arriving caller
receives the same pending result and the state does not change. -/
theorem requestTokenN_inflight (s : ManagerState) (op : Nat)
    (h : s.phase = .authenticating op ∨ s.phase = .renewing op) :
    ∀ n, requestTokenN s n = (s, List.replicate n (.pending op)) := by
  intro n
  induction n with
  | zero => rfl
  | succ k ih =>
      have hstep : requestToken s = (s, .pending op) := by
        rcases h with h | h <;> simp [requestToken, h]
      simp [requestTokenN, hstep, ih, List.replicate_succ]

/-- C7: for N callers requesting a valid token while an authentication
or renewal operation is in flight, no additional backend network call is
made (the call count stays at its current value, i.e. exactly the one
in-flight call exists) and all N callers await the same pending
result. -/
theorem single_inflight_login (s : ManagerState) (op n : Nat)
    (h : s.phase = .authenticating op ∨ s.phase = .renewing op) :
    (requestTokenN s n).1.backendCalls = s.backendCalls ∧
    (requestTokenN s n).2 = List.replicate n (.pending op) := by
  rw [requestTokenN_inflight s op h n]
  exact ⟨rfl, rfl⟩

/-- C7 witness: five callers arriving while authentication request 0 is
in flight (one backend call already issued) leave the call count at one
and all await pending result 0. -/
theorem single_inflight_login_witness :
    ((⟨.authenticating 0, 1⟩ : ManagerState).phase = .authenticating 0 ∨
      (⟨.authenticating 0, 1⟩ : ManagerState).phase = .renewing 0) ∧
    ((requestTokenN ⟨.authenticating 0, 1⟩ 5).1.backendCalls = 1 ∧
      (requestTokenN ⟨.authenticating 0, 1⟩ 5).2 =
        List.replicate 5 (.pending 0)) :=
  ⟨Or.inl rfl, single_inflight_login ⟨.authenticating 0, 1⟩ 0 5 (Or.inl rfl)⟩

/-- Helper: the renewal timer fires at `h * (k / h) + h` exactly at the
multiples of the half-lease `h`. -/
theorem half_step_div (h k : Nat) :
    k + 1 = h * (k / h) + h ↔ h ∣ (k + 1) := by
  constructor
  · intro he
    exact ⟨k / h + 1, by rw [he, Nat.mul_add, Nat.mul_one]⟩
  · intro hdvd
    have h1 : h * ((k + 1) / h) = k + 1 := Nat.mul_div_cancel' hdvd
    rw [Nat.succ_div_of_dvd hdvd] at h1
    rw [← h1, Nat.mul_add, Nat.mul_one]

/-- Helper: closed form of the kept-alive lifecycle — the cached entity
at time `n` was last renewed at the greatest multiple of the half-lease
not exceeding `n`, with credential and lease metadata preserved. -/
theorem lifecycleAt_closed (l : Nat) (hl : 2 ≤ l) (tok : TokenEntity)
    (hr : tok.renewable = true) (hi : tok.issuedAt = 0)
    (hd : tok.leaseDuration = l) :
    ∀ n, lifecycleAt tok n =
      { credential := tok.credential
        issuedAt := (l + 1) / 2 * (n / ((l + 1) / 2))
        leaseDuration := l
        renewable := true } := by
  intro n
  have hpos : 0 < (l + 1) / 2 := by omega
  induction n with
  | zero =>
      obtain ⟨c, i, d, r⟩ := tok
      simp only at hr hi hd
      subst hr hi hd
      simp [lifecycleAt, Nat.zero_div]
  | succ k ih =>
      simp only [lifecycleAt, ih, TokenEntity.renewAt, TokenEntity.renewNow]
      by_cases hdvd : ((l + 1) / 2) ∣ (k + 1)
      · rw [if_pos ⟨trivial, (half_step_div _ k).2 hdvd⟩]
        have hcancel : (l + 1) / 2 * ((k + 1) / ((l + 1) / 2)) = k + 1 :=
          Nat.mul_div_cancel' hdvd
        rw [hcancel]
      · rw [if_neg fun hc => hdvd ((half_step_div _ k).1 hc.2)]
        rw [Nat.succ_div_of_not_dvd hdvd]

/-- Helper: closed form of the renewal count — during the first `n`
seconds the kept-alive manager has renewed once per elapsed
half-lease. -/
theorem renewalsUpTo_closed (l : Nat) (hl : 2 ≤ l) (tok : TokenEntity)
    (hr : tok.renewable = true) (hi : tok.issuedAt = 0)
    (hd : tok.leaseDuration = l) :
    ∀ n, renewalsUpTo tok n = n / ((l + 1) / 2) := by
  intro n
  have hpos : 0 < (l + 1) / 2 := by omega
  induction n with
  | zero => simp [renewalsUpTo, Nat.zero_div]
  | succ k ih =>
      simp only [renewalsUpTo, ih, lifecycleAt_closed l hl tok hr hi hd k,
        TokenEntity.renewAt]
      by_cases hdvd : ((l + 1) / 2) ∣ (k + 1)
      · rw [if_pos ⟨trivial, (half_step_div _ k).2 hdvd⟩,
          Nat.succ_div_of_dvd hdvd]
      · rw [if_neg fun hc => hdvd ((half_step_div _ k).1 hc.2),
          Nat.succ_div_of_not_dvd hdvd, Nat.add_zero]

/-- C8: a renewable token with lease `l ≥ 2` held from time 0 by a
manager kept alive longer than the lease undergoes exactly one
successful renewal strictly before the original expiry, the cached
entity's expiry after that window strictly exceeds the original expiry,
at every instant the cached entity is unexpired (no caller ever observes
an expired token), and the credential is preserved across renewals. -/
theorem renewal_before_expiry (l : Nat) (hl : 2 ≤ l) (tok : TokenEntity)
    (hr : tok.renewable = true) (hi : tok.issuedAt = 0)
    (hd : tok.leaseDuration = l) :
    renewalsUpTo tok (l - 1) = 1 ∧
    tok.expiry < (lifecycleAt tok (l - 1)).expiry ∧
    (∀ t, t < (lifecycleAt tok t).expiry) ∧
    (∀ t, (lifecycleAt tok t).credential = tok.credential) := by
  have hpos : 0 < (l + 1) / 2 := by omega
  have hdiv1 : (l - 1) / ((l + 1) / 2) = 1 :=
    Nat.div_eq_of_lt_le (by omega) (by omega)
  refine ⟨?_, ?_, ?_, ?_⟩
  · rw [renewalsUpTo_closed l hl tok hr hi hd, hdiv1]
  · rw [lifecycleAt_closed l hl tok hr hi hd, hdiv1]
    simp only [TokenEntity.expiry, hi, hd]
    omega
  · intro t
    rw [lifecycleAt_closed l hl tok hr hi hd t]
    simp only [TokenEntity.expiry]
    have hmod : t % ((l + 1) / 2) < (l + 1) / 2 := Nat.mod_lt _ hpos
    have hdm : (l + 1) / 2 * (t / ((l + 1) / 2)) + t % ((l + 1) / 2) = t :=
      Nat.div_add_mod t ((l + 1) / 2)
    omega
  · intro t
    rw [lifecycleAt_closed l hl tok hr hi hd t]

/-- C8 witness: the e2e renewal scenario's parameters — a renewable
token with a 2-second lease held from time 0. -/
theorem renewal_before_expiry_witness :
    2 ≤ 2 ∧ (⟨"T1", 0, 2, true⟩ : TokenEntity).renewable = true ∧
    (renewalsUpTo ⟨"T1", 0, 2, true⟩ 1 = 1 ∧
      (⟨"T1", 0, 2, true⟩ : TokenEntity).expiry <
        (lifecycleAt ⟨"T1", 0, 2, true⟩ 1).expiry ∧
      (∀ t, t < (lifecycleAt ⟨"T1", 0, 2, true⟩ t).expiry) ∧
      (∀ t, (lifecycleAt ⟨"T1", 0, 2, true⟩ t).credential = "T1")) :=
  ⟨by decide, rfl, renewal_before_expiry 2 (by decide) ⟨"T1", 0, 2, true⟩
    rfl rfl rfl⟩

/-- C9: for every supported backend variant, a successful
`authenticate()` — against a store whose successful login responses
carry a non-empty client token, and (for the Token backend) a non-empty
configured credential — yields a Token Entity whose credential is
non-empty and whose lease duration is at least zero. -/
theorem authenticate_yields_wellformed_token (b : AuthBackend)
    (fs : String → Except String String)
    (api : LoginRequest → Except JsError LoginResponse)
    (selfLookup : String → Nat × Bool) (e : TokenEntity)
    (hok : authenticateBackend b fs api selfLookup = .ok e)
    (hapi : ∀ r res, api r = .ok res → res.client_token ≠ "")
    (htok : ∀ cfg, b = .token cfg → cfg.token ≠ "") :
    e.credential ≠ "" ∧ 0 ≤ e.leaseDuration := by
  refine ⟨?_, Nat.zero_le _⟩
  cases b with
  | token cfg =>
      simp only [authenticateBackend, Except.ok.injEq] at hok
      rw [← hok]
      exact htok cfg rfl
  | appRole cfg mount =>
      simp only [authenticateBackend] at hok
      rcases hr : api { method := "POST"
                        path := "/auth/" ++ mount ++ "/login"
                        body := .appRole cfg.role_id cfg.secret_id } with
        er | res
      · rw [hr] at hok; cases hok
      · rw [hr] at hok
        simp only [Except.ok.injEq] at hok
        rw [← hok]
        exact hapi _ res hr
  | kubernetes a =>
      simp only [authenticateBackend, VaultKubernetesAuth.runAuthenticate]
        at hok
      rcases hf : fs a.filePath with ef | jwt
      · rw [hf] at hok; cases hok
      · rw [hf] at hok
        simp only at hok
        rcases hr : api { method := "POST"
                          path := "/auth/" ++ a.mount ++ "/login"
                          body := .kubernetes a.role jwt } with er | res
        · rw [hr] at hok; cases hok
        · rw [hr] at hok
          simp only [Except.ok.injEq] at hok
          rw [← hok]
          exact hapi _ res hr

/-- C9 witness: the Kubernetes backend against a concrete readable file
and a store returning the token `TOK-7`. -/
theorem authenticate_yields_wellformed_token_witness :
    authenticateBackend
        (.kubernetes (VaultKubernetesAuth.mk' ⟨some "r", none⟩ none))
        (fsWith "J") (apiWith "TOK-7") selfLookupEx =
      .ok (getTokenEntity "TOK-7" 60 true) ∧
    ((getTokenEntity "TOK-7" 60 true).credential ≠ "" ∧
      0 ≤ (getTokenEntity "TOK-7" 60 true).leaseDuration) :=
  ⟨rfl,
    authenticate_yields_wellformed_token
      (.kubernetes (VaultKubernetesAuth.mk' ⟨some "r", none⟩ none))
      (fsWith "J") (apiWith "TOK-7") selfLookupEx
      (getTokenEntity "TOK-7" 60 true) rfl
      (fun r res h => by cases h; decide)
      (fun cfg h => nomatch h)⟩
